import Mathlib

/-!
Verification development for the Project Leroy visitation subsystem.

The definitions below are a shallow embedding of the Python sources:
  - `visitations.py` (the online visitation state machine `Visitations.update`,
    `Visitations.add`, `Visitations.reset`, and the `Visitation` class),
  - `visitation.py` (the offline filename parser `parse` and the best-photo
    selectors `find_best_photo` / `find_best_photo_for_species`),
  - `photo.py` together with `photo_metadata.py` (the `save` path for photos).

Machine floats (detection scores, `time.time()`, clarity scores) are modelled
as rationals; Python `int()` truncation is modelled explicitly; Python string
operations (`split`, `replace`, substring `in`) are modelled by executable
functions on the character list of the string, with Python semantics.
Fallible Python code (statements that can raise `NameError` / `ValueError`)
is modelled with an explicit result type carrying the raised error.
-/

/-- Errors a modelled Python fragment can raise.  `nameError n` stands for a
`NameError`/`UnboundLocalError` on the variable named `n`; `valueError`
stands for `ValueError` (raised by `datetime.strptime` on unparsable input). -/
inductive PyErr where
  | nameError (n : String)
  | valueError
  deriving DecidableEq

/-- Result of running a modelled Python fragment: either a value or a raised
exception. -/
inductive PyResult (α : Type) where
  | ok (a : α)
  | exn (e : PyErr)
  deriving DecidableEq

/-- Python `int(q)` on a real number: truncation toward zero. -/
def pyInt (q : ℚ) : ℤ :=
  if 0 ≤ q then ⌊q⌋ else -⌊-q⌋

/-- `int(100 * q)`, the percent computation of `visitations.py` line 83.
The product `100 * q` is formed on the numerator (`mkRat (100 * q.num)
q.den` is the same rational as `100 * q`, see `pyInt100_eq_pyInt` below) so
that the kernel can evaluate the definition on concrete inputs. -/
def pyInt100 (q : ℚ) : ℤ :=
  pyInt (mkRat (100 * q.num) q.den)

/-- Python `s.split(c)` for a one-character separator, on the character list:
splits at every occurrence of `c`, keeping empty pieces (so the result always
has one more element than the number of separators). -/
def splitChar (c : Char) : List Char → List (List Char)
  | [] => [[]]
  | x :: xs =>
    match splitChar c xs with
    | [] => [[]]
    | h :: t => if x = c then [] :: h :: t else (x :: h) :: t

/-- Python `s.split(c)` for a one-character separator `c`, as strings. -/
def strSplit (s : String) (c : Char) : List String :=
  (splitChar c s.data).map String.mk

/-- Worker for `replaceList`, structurally recursive on a fuel argument so
that the kernel can evaluate it; the fuel is always at least the length of
the list being processed, so the `0` case is never reached from
`replaceList`. -/
def replaceListAux (pat repl : List Char) : ℕ → List Char → List Char
  | 0, l => l
  | _ + 1, [] => []
  | fuel + 1, x :: xs =>
    if pat ≠ [] ∧ pat.isPrefixOf (x :: xs) then
      repl ++ replaceListAux pat repl fuel ((x :: xs).drop pat.length)
    else
      x :: replaceListAux pat repl fuel xs

/-- Python `s.replace(pat, repl)` on character lists: replaces every
(leftmost, non-overlapping) occurrence of `pat`.  An empty pattern is left
alone (the sources never use one). -/
def replaceList (pat repl : List Char) (l : List Char) : List Char :=
  replaceListAux pat repl l.length l

/-- Python `s.replace(pat, repl)` on strings. -/
def pyReplace (s pat repl : String) : String :=
  String.mk (replaceList pat.data repl.data s.data)

/-- Python substring test `pat in s` on character lists. -/
def containsSub (pat : List Char) : List Char → Bool
  | [] => pat.isPrefixOf []
  | x :: xs => pat.isPrefixOf (x :: xs) || containsSub pat xs

/-- Python substring test `pat in s` on strings. -/
def pyContains (s pat : String) : Bool :=
  containsSub pat.data s.data

/-- A `datetime.datetime` value (year, month, day, hour, minute, second). -/
structure DT where
  year : ℕ
  month : ℕ
  day : ℕ
  hour : ℕ
  minute : ℕ
  second : ℕ
  deriving DecidableEq

/-- Number of days in a month of a given year (Gregorian rules, as used by
Python's `datetime` validation). -/
def daysInMonth (y m : ℕ) : ℕ :=
  if m = 2 then
    if y % 4 = 0 ∧ (y % 100 ≠ 0 ∨ y % 400 = 0) then 29 else 28
  else if m = 4 ∨ m = 6 ∨ m = 9 ∨ m = 11 then 30
  else 31

/-- Whether a character list is a nonempty run of ASCII digits of length at
most `n` (the field-width bound of the corresponding `strptime` directive). -/
def digitsAtMost (n : ℕ) (l : List Char) : Bool :=
  decide (l ≠ []) && decide (l.length ≤ n) && l.all (·.isDigit)

/-- Numeric value of a list of ASCII digits. -/
def digitsToNat (l : List Char) : ℕ :=
  l.foldl (fun a c => 10 * a + (c.toNat - 48)) 0

/-- `datetime.strptime(s, "%Y-%m-%d %H-%M-%S")`: `none` models the
`ValueError` Python raises when the string does not match the format or the
field values are out of range (year ≥ 1, month 1–12, day within the month,
hour ≤ 23, minute ≤ 59, second ≤ 59). -/
def strptimeYmdHMS (s : String) : Option DT :=
  match strSplit s ' ' with
  | [ds, ts] =>
    match strSplit ds '-', strSplit ts '-' with
    | [ys, ms, dds], [hs, mis, ss] =>
      if digitsAtMost 4 ys.data ∧ digitsAtMost 2 ms.data ∧ digitsAtMost 2 dds.data ∧
         digitsAtMost 2 hs.data ∧ digitsAtMost 2 mis.data ∧ digitsAtMost 2 ss.data then
        let y := digitsToNat ys.data
        let mo := digitsToNat ms.data
        let d := digitsToNat dds.data
        let h := digitsToNat hs.data
        let mi := digitsToNat mis.data
        let sec := digitsToNat ss.data
        if 1 ≤ y ∧ 1 ≤ mo ∧ mo ≤ 12 ∧ 1 ≤ d ∧ d ≤ daysInMonth y mo ∧
           h ≤ 23 ∧ mi ≤ 59 ∧ sec ≤ 59 then
          some ⟨y, mo, d, h, mi, sec⟩
        else none
      else none
    | _, _ => none
  | _ => none

/-! ## `visitation.py`: the filename parser `parse` -/

/-- The record dictionary returned by `parse` in `visitation.py`.  Score
fields are kept as strings, exactly as the Python code keeps them. -/
structure PRec where
  filename : String
  dt : DT
  detection_score : String
  visitation_id : String
  species : String
  classification_score : String
  deriving DecidableEq

/-- `filename.split('/')` — the `path` list at the top of `parse`
(`visitation.py` line 37). -/
def pathOf (filename : String) : List String :=
  strSplit filename '/'

/-- `os.path.basename(filename)`: the part after the final `/`
(`visitation.py` line 38). -/
def basenameOf (filename : String) : String :=
  (pathOf filename).getLastD ""

/-- `path[-2] if len(path) >= 2 else datetime.now().strftime('%Y-%m-%d')`
(`visitation.py` line 42).  Note that under the layout documented in the
function's own docstring, `/.../{date}/{visitation_id}/filename`, the
second-to-last component is the visitation id, not the date. -/
def dateFromPath (nowDate : String) (filename : String) : String :=
  let path := pathOf filename
  if 2 ≤ path.length then path.getD (path.length - 2) "" else nowDate

/-- `path[-1].split('/')[0] if len(path) >= 1 else ""`
(`visitation.py` line 43).  Since `path[-1]` contains no `/`, this is the
file's basename, not the visitation-id directory component. -/
def visitationIdFromPath (filename : String) : String :=
  let path := pathOf filename
  if 1 ≤ path.length then (strSplit (path.getLastD "") '/').getD 0 "" else ""

/-- `basename.replace('.png', '').split('_')` — the `parts` list
(`visitation.py` line 46). -/
def partsOf (filename : String) : List String :=
  strSplit (pyReplace (basenameOf filename) ".png" "") '_'

/-- `parts[0]` — the `photo_type` (`visitation.py` line 59). -/
def photoTypeOf (filename : String) : String :=
  (partsOf filename).getD 0 ""

/-- `len(parts) > 1 and parts[1] == "12mp"` (`visitation.py` line 60). -/
def is12mpOf (filename : String) : Bool :=
  decide (1 < (partsOf filename).length) && ((partsOf filename).getD 1 "" == "12mp")

/-- `parts[data_start:]` — the `data` list (`visitation.py` lines 63–64). -/
def dataOf (filename : String) : List String :=
  (partsOf filename).drop (if is12mpOf filename then 2 else 1)

/-- The best-effort default record `parse` builds both in its empty-`parts`
branch and in its final fallback branch (`visitation.py` lines 49–56 and
99–106): empty species, scores `"0"`, `datetime.now()` as the timestamp,
and the (mis-derived) visitation id from the path. -/
def fallbackRecord (now : DT) (filename : String) : PRec :=
  { filename := pyReplace filename "/var/www/html" ""
    dt := now
    detection_score := "0"
    visitation_id := visitationIdFromPath filename
    species := ""
    classification_score := "0" }

/-- `parse(filename)` from `visitation.py` (lines 26–106).  `nowDate` models
`datetime.now().strftime('%Y-%m-%d')` and `now` models `datetime.now()`.
The result is `.exn .valueError` when `datetime.strptime` raises (that call
is not wrapped in any `try`), mirroring the uncaught `ValueError`. -/
def parse (nowDate : String) (now : DT) (filename : String) : PyResult PRec :=
  if partsOf filename = [] then
    .ok (fallbackRecord now filename)
  else if photoTypeOf filename = "boxed" ∧ 4 ≤ (dataOf filename).length then
    match strptimeYmdHMS (dateFromPath nowDate filename ++ " " ++
        (dataOf filename).getD 0 "") with
    | none => .exn .valueError
    | some dt =>
      .ok { filename := pyReplace filename "/var/www/html" ""
            dt := dt
            detection_score := (dataOf filename).getD 1 ""
            visitation_id := visitationIdFromPath filename
            species := pyReplace ((dataOf filename).getD 2 "") "-" " "
            classification_score := (dataOf filename).getD 3 "" }
  else if photoTypeOf filename = "full" ∧ 2 ≤ (dataOf filename).length then
    match strptimeYmdHMS (dateFromPath nowDate filename ++ " " ++
        (dataOf filename).getD 0 "") with
    | none => .exn .valueError
    | some dt =>
      .ok { filename := pyReplace filename "/var/www/html" ""
            dt := dt
            detection_score := (dataOf filename).getD 1 ""
            visitation_id := visitationIdFromPath filename
            species := ""
            classification_score := "0" }
  else
    .ok (fallbackRecord now filename)

/-! ## `visitations.py`: the online visitation state machine -/

/-- A normalized detection bounding box, `BBox(xmin, ymin, xmax, ymax)`
(`leroy.py` line 57). -/
structure Rect where
  xmin : ℚ
  ymin : ℚ
  xmax : ℚ
  ymax : ℚ
  deriving DecidableEq

/-- A detection result `Object(id, score, bbox)` as every producer in the
repository builds it (`leroy.py` line 29, `tests/test_visitations.py`).
Such an object always takes the `if obj.bbox:` branch of
`Visitations.update` (line 71): `bbox` is a four-field namedtuple and hence
always truthy.  The dead `else` branch for legacy edgetpu results (which
lack the `.id` attribute read unconditionally at line 104) is not modelled,
since no caller in the repository constructs that shape. -/
structure Obj where
  id : ℕ
  score : ℚ
  bbox : Rect
  deriving DecidableEq

/-- The label dictionary passed to `update`; `labels.get(obj.id, obj.id)`
yields the label string when present, otherwise the integer id itself
(modelled as `none`, which compares unequal to every label string just as
the Python integer compares unequal to `'bird'`). -/
abbrev Labels := ℕ → Option String

/-- A frame, reduced to its shape `(height, width, channels)`; pixel data
plays no role in the state machine's control flow. -/
structure Frame where
  height : ℕ
  width : ℕ
  channels : ℕ
  deriving DecidableEq

/-- One `Photo.capture(...)` submission issued by `update`: the photo type
(`'boxed'` or `'full'`), the visitation id passed along, and the integer
percent score passed along.  The cropped/full pixel contents are not
modelled. -/
structure Capture where
  ptype : String
  vid : Option ℕ
  percent : ℤ
  deriving DecidableEq

/-- A `Visitation` instance (`visitations.py` lines 162–179).  Its `id`
field is a class attribute, `id = uuid.uuid4()`, evaluated once when the
class body runs; the commented-out `__init__` assigns nothing, so creating
an instance draws no fresh uuid. -/
structure VisitationObj where
  start_time : Option ℚ
  end_time : Option ℚ
  id : ℕ
  deriving DecidableEq

/-- The single `uuid.uuid4()` call evaluated at class-definition time of
`Visitation` (`visitations.py` line 165), given the uuid the generator
yields when the module is loaded. -/
def visitationClassUuid (uuidAtLoad : ℕ) : ℕ := uuidAtLoad

/-- `Visitation()`: no `__init__` runs, so the instance carries the class
attribute `id` — the same `classUuid` for every instance. -/
def mkVisitation (classUuid : ℕ) : VisitationObj :=
  { start_time := none, end_time := none, id := classUuid }

/-- The list of instances obtained from `n` successive `Visitation()`
constructions. -/
def mkVisitationRun (classUuid : ℕ) (n : ℕ) : List VisitationObj :=
  (List.range n).map (fun _ => mkVisitation classUuid)

/-- The mutable state of a `Visitations` object (`visitations.py` lines
13–27).  `last_tracked` and `started_tracking` are declared as class
attributes but are never written through `self.` by any method (lines 93,
140 and 157 assign same-named local variables instead), so they stay `none`.
The `success`, `boxes` and `recording` attributes are never read on any
live path and are omitted. -/
structure VisitationsState where
  visitations : List ℕ
  bboxes : List Rect
  photo_per_visitation_count : ℕ
  photo_per_visitation_max : ℕ
  full_photo_per_visitation_max : ℕ
  full_photo_per_visitation_count : ℕ
  out : Option Unit
  last_tracked : Option ℚ
  started_tracking : Option ℚ
  visitation_id : Option ℕ
  deriving DecidableEq

/-- The class-attribute initial values of `Visitations`
(`visitations.py` lines 14–27). -/
def initState : VisitationsState :=
  { visitations := []
    bboxes := []
    photo_per_visitation_count := 0
    photo_per_visitation_max := 10
    full_photo_per_visitation_max := 1
    full_photo_per_visitation_count := 0
    out := none
    last_tracked := none
    started_tracking := none
    visitation_id := none }

/-- `Visitations.add(obj, frame)` (`visitations.py` lines 137–145): creates
a `Visitation` (whose `id` is the shared class uuid), appends `obj.bbox` to
`self.bboxes`, and returns `visitation.id`.  The `recording` assignment is
to a local variable and the width/height computations are dead. -/
def addVisitation (classUuid : ℕ) (s : VisitationsState) (o : Obj) :
    VisitationsState × ℕ :=
  let v := mkVisitation classUuid
  ({ s with bboxes := s.bboxes ++ [o.bbox] }, v.id)

/-- `Visitations.reset()` (`visitations.py` lines 147–160): clears
`self.visitations` and `self.bboxes`, zeroes both photo counters, and
releases `self.out`.  It does not touch `self.visitation_id` (the
`boxes` and `recording` assignments are to local variables). -/
def reset (s : VisitationsState) : VisitationsState :=
  { s with
    visitations := []
    bboxes := []
    photo_per_visitation_count := 0
    full_photo_per_visitation_count := 0
    out := none }

/-- Accumulator of the per-object loop of `update` (`visitations.py` lines
67–113): the capture events issued so far, the `bird_detected` flag, and
the current value of the local variable `percent` (`none` while it is still
unassigned — reading it then is an `UnboundLocalError`). -/
structure LoopAcc where
  events : List Capture
  bird_detected : Bool
  lastPercent : Option ℤ
  deriving DecidableEq

/-- The body of `for obj in objs:` in `Visitations.update`
(`visitations.py` lines 70–113), iterated over the whole list.  For each
object: resolve the label, compute `percent = int(100 * obj.score)`; when
the label is `'bird'` and `percent > 20`, start a visitation if
`len(self.bboxes) == 0` (lines 91–94) and then capture a boxed photo if
`photo_per_visitation_count <= photo_per_visitation_max` (lines 96–98).
The drawing bookkeeping (lines 107–118) touches only pixels and is not
modelled. -/
def processObjs (classUuid : ℕ) (labels : Labels) :
    VisitationsState → LoopAcc → List Obj → VisitationsState × LoopAcc
  | s, acc, [] => (s, acc)
  | s, acc, o :: rest =>
    let object_label := labels o.id
    let percent := pyInt100 o.score
    if object_label = some "bird" ∧ 20 < percent then
      let s1 :=
        if s.bboxes = [] then
          let (s', vid) := addVisitation classUuid s o
          { s' with visitation_id := some vid }
        else s
      let step :=
        if s1.photo_per_visitation_count ≤ s1.photo_per_visitation_max then
          ({ s1 with photo_per_visitation_count := s1.photo_per_visitation_count + 1 },
           acc.events ++ [⟨"boxed", s1.visitation_id, percent⟩])
        else (s1, acc.events)
      processObjs classUuid labels step.1
        { events := step.2, bird_detected := true, lastPercent := some percent } rest
    else
      processObjs classUuid labels s { acc with lastPercent := some percent } rest

/-- `Visitations.update(objs, frame, labels)` (`visitations.py` lines
62–135).  After the per-object loop: if
`full_photo_per_visitation_count <= full_photo_per_visitation_max` and
`self.visitation_id` is truthy, a `'full'` capture of the whole frame is
issued using the loop variable `percent` (lines 120–123) — an
`UnboundLocalError` when the loop body never ran.  Finally, if no bird was
detected and `len(self.visitations) > 0`, line 134 reads the bare name
`last_tracked`, which is assigned nowhere in the function or module — a
`NameError` (the `now = time.time()` on line 133 runs first and is
harmless).  `now` is the value `time.time()` would return. -/
def update (classUuid : ℕ) (labels : Labels) (now : ℚ) (s : VisitationsState)
    (objs : List Obj) (frame : Frame) : PyResult (VisitationsState × List Capture) :=
  let r := processObjs classUuid labels s ⟨[], false, none⟩ objs
  let s1 := r.1
  let acc := r.2
  let step2 : PyResult (VisitationsState × List Capture) :=
    if s1.full_photo_per_visitation_count ≤ s1.full_photo_per_visitation_max then
      if s1.visitation_id.isSome then
        match acc.lastPercent with
        | none => .exn (.nameError "percent")
        | some p =>
          .ok ({ s1 with full_photo_per_visitation_count :=
                   s1.full_photo_per_visitation_count + 1 },
               acc.events ++ [⟨"full", s1.visitation_id, p⟩])
      else .ok (s1, acc.events)
    else .ok (s1, acc.events)
  match step2 with
  | .exn e => .exn e
  | .ok (s2, evs) =>
    if acc.bird_detected = false ∧ 0 < s2.visitations.length then
      .exn (.nameError "last_tracked")
    else .ok (s2, evs)

/-- Feeding the state machine one `update` call per frame, accumulating the
capture submissions in order. -/
def runFrames (classUuid : ℕ) (labels : Labels) (now : ℚ) (frame : Frame) :
    VisitationsState → List (List Obj) → PyResult (VisitationsState × List Capture)
  | s, [] => .ok (s, [])
  | s, objs :: rest =>
    match update classUuid labels now s objs frame with
    | .exn e => .exn e
    | .ok (s', evs) =>
      match runFrames classUuid labels now frame s' rest with
      | .exn e => .exn e
      | .ok (s'', evs') => .ok (s'', evs ++ evs')

/-- Number of capture submissions of a given photo type. -/
def countType (t : String) (evs : List Capture) : ℕ :=
  (evs.filter (fun e => e.ptype == t)).length

/-- The final state of a run, when it completed without raising. -/
def resSt (r : PyResult (VisitationsState × List Capture)) : Option VisitationsState :=
  match r with
  | .ok (s, _) => some s
  | .exn _ => none

/-- The capture submissions of a run, when it completed without raising. -/
def resEvents (r : PyResult (VisitationsState × List Capture)) : Option (List Capture) :=
  match r with
  | .ok (_, evs) => some evs
  | .exn _ => none

/-- A qualifying bird detection (`visitations.py` line 87): the resolved
label is `'bird'` and `int(100 * obj.score) > 20`. -/
def Qualifies (labels : Labels) (o : Obj) : Prop :=
  labels o.id = some "bird" ∧ 20 < pyInt100 o.score

instance (labels : Labels) (o : Obj) : Decidable (Qualifies labels o) := by
  unfold Qualifies; infer_instance

/-- Total number of detections in a list of frames. -/
def totalObjs (frames : List (List Obj)) : ℕ :=
  (frames.map List.length).sum

/-! ## `visitation.py`: best-photo selection -/

/-- A record as consumed by the best-photo selectors.  Scores are modelled
as integers: they model records whose stored score strings are well-formed
integers, so the `int(...)` conversions succeed (the `try/except` in
`find_best_photo_for_species` that skips records with malformed score
strings therefore never fires on the modelled inputs). -/
structure BRec where
  filename : String
  detection_score : ℤ
  classification_score : ℤ
  deriving DecidableEq

/-- `"full" in record['filename']` (`visitation.py` lines 151 and 284). -/
def isFullRec (r : BRec) : Bool :=
  pyContains r.filename "full"

/-- The total score of a record:
`int(record["classification_score"]) + int(record["detection_score"]) +
clarity('/var/www/html' + record['filename'])` (`visitation.py` lines
152–153 and 286–289).  `clarityOf` is the clarity score the Laplacian
measure yields for a path (a nonnegative variance in the real program, but
nothing below depends on its sign). -/
def totalScore (clarityOf : String → ℚ) (r : BRec) : ℚ :=
  (r.classification_score : ℚ) + (r.detection_score : ℚ) +
    clarityOf ("/var/www/html" ++ r.filename)

/-- The loop of `find_best_photo` (`visitation.py` lines 147–157): running
`best` score (initially `0`), `best_index` (initially `0`), and the
enumeration index. -/
def findBestPhotoGo (clarityOf : String → ℚ) :
    ℚ → ℕ → ℕ → List BRec → ℕ
  | _, best_index, _, [] => best_index
  | best, best_index, index, r :: rest =>
    if isFullRec r then
      findBestPhotoGo clarityOf best best_index (index + 1) rest
    else
      let total := totalScore clarityOf r
      if best < total then
        findBestPhotoGo clarityOf total index (index + 1) rest
      else
        findBestPhotoGo clarityOf best best_index (index + 1) rest

/-- `find_best_photo(records)` (`visitation.py` lines 147–157): returns the
index of the best-scoring non-"full" record, or `0` (which may point at a
"full" record) when no non-"full" record scores above the initial `best = 0`. -/
def find_best_photo (clarityOf : String → ℚ) (records : List BRec) : ℕ :=
  findBestPhotoGo clarityOf 0 0 0 records

/-- The loop of `find_best_photo_for_species` (`visitation.py` lines
279–295): running `best` score (initially `0`) and `best_record`
(initially `None`). -/
def findBestForSpeciesGo (clarityOf : String → ℚ) :
    ℚ → Option BRec → List BRec → Option BRec
  | _, best_record, [] => best_record
  | best, best_record, r :: rest =>
    if isFullRec r then
      findBestForSpeciesGo clarityOf best best_record rest
    else
      let total := totalScore clarityOf r
      if best < total then
        findBestForSpeciesGo clarityOf total (some r) rest
      else
        findBestForSpeciesGo clarityOf best best_record rest

/-- `find_best_photo_for_species(records)` (`visitation.py` lines 279–295):
returns the best-scoring non-"full" record, or `None` when no non-"full"
record scores above the initial `best = 0`. -/
def find_best_photo_for_species (clarityOf : String → ℚ) (records : List BRec) :
    Option BRec :=
  findBestForSpeciesGo clarityOf 0 none records

/-! ## `photo.py` / `photo_metadata.py`: saving a photo -/

/-- Content stored at a path in the modelled filesystem: image bytes
(opaque, identified by a natural number) or a metadata document. -/
inductive FileData where
  | image (bytes : ℕ)
  | meta (doc : ℕ)
  deriving DecidableEq

/-- The filesystem visible to `photo.save`: an association of paths to file
contents, plus the set of directories that exist. -/
structure FS where
  files : List (String × FileData)
  dirs : List String
  deriving DecidableEq

/-- `os.path.isfile(p)` on the modelled filesystem. -/
def isfile (fs : FS) (p : String) : Bool :=
  (fs.files.lookup p).isSome

/-- Writing (or overwriting) a file. -/
def writeFile (fs : FS) (p : String) (d : FileData) : FS :=
  { fs with files := (p, d) :: fs.files.filter (fun e => e.1 ≠ p) }

/-- `PhotoMetadata.get_image_filename(photo_id, photo_type)`
(`photo_metadata.py` lines 25–38). -/
def get_image_filename (photo_id photo_type : String) : String :=
  if photo_type = "full" then photo_id ++ "_full.png" else photo_id ++ ".png"

/-- `PhotoMetadata.get_metadata_filename(photo_id, photo_type)`
(`photo_metadata.py` lines 41–54). -/
def get_metadata_filename (photo_id photo_type : String) : String :=
  if photo_type = "full" then photo_id ++ "_full.json" else photo_id ++ ".json"

/-- The frame handed to `photo.save`: opaque pixel bytes plus its shape. -/
structure Image where
  bytes : ℕ
  height : ℕ
  width : ℕ
  deriving DecidableEq

/-- The ambient inputs of one `photo.save` call that the Python code reads
from the environment: the disk-usage percentage (`psutil.disk_usage('/')`),
the fresh uuid4 photo id, today's date string (`time.strftime("%Y-%m-%d")`),
and an identifier for the metadata document assembled by
`PhotoMetadata.create_metadata` (its exact fields play no role in the claim
verified below). -/
structure SaveEnv where
  diskPercent : ℚ
  freshId : String
  today : String
  metaDoc : ℕ
  deriving DecidableEq

/-- `has_disk_space()` (`photo.py` lines 28–30). -/
def has_disk_space (env : SaveEnv) : Bool :=
  decide (env.diskPercent < 95)

/-- `mkdirs(visitation_id)` (`photo.py` lines 55–60): the directory path
`storage/detected/{date}/{visitation_id}`, created if missing. -/
def mkdirsDir (env : SaveEnv) (visitation_id : String) : String :=
  "storage/detected/" ++ env.today ++ "/" ++ visitation_id

/-- The directory-creation effect of `mkdirs` on the filesystem. -/
def mkdirsFS (fs : FS) (d : String) : FS :=
  if fs.dirs.contains d then fs else { fs with dirs := d :: fs.dirs }

/-- The image path `os.path.join(directory, image_filename)` computed by
`photo.save` (`photo.py` lines 99–102). -/
def savedImagePath (env : SaveEnv) (visitation_id photo_type : String) : String :=
  mkdirsDir env visitation_id ++ "/" ++ get_image_filename env.freshId photo_type

/-- The metadata path `os.path.join(directory, metadata_filename)`
(`photo.py` lines 100–103). -/
def savedMetadataPath (env : SaveEnv) (visitation_id photo_type : String) : String :=
  mkdirsDir env visitation_id ++ "/" ++ get_metadata_filename env.freshId photo_type

/-- `photo.save(frame, visitation_id, detection_score, photo_type, ...)`
(`photo.py` lines 62–119), returning the filesystem after the call and the
log messages it emitted.  If the disk is above the usage threshold the save
is skipped; otherwise the directory is created, and the image plus its
metadata sidecar are written only when no file exists at the image path —
an existing file is left untouched and a warning is logged.  The body's
`try/except` cannot fire in this pure model and exceptions are absent. -/
def save (env : SaveEnv) (fs : FS) (frame : Image) (visitation_id : String)
    (photo_type : String) : FS × List String :=
  if ¬ has_disk_space env then
    (fs, ["Disk space low, skipping photo save"])
  else
    let directory := mkdirsDir env visitation_id
    let fs1 := mkdirsFS fs directory
    let image_path := savedImagePath env visitation_id photo_type
    let metadata_path := savedMetadataPath env visitation_id photo_type
    if ¬ isfile fs1 image_path then
      let fs2 := writeFile fs1 image_path (.image frame.bytes)
      let fs3 := writeFile fs2 metadata_path (.meta env.metaDoc)
      (fs3, ["Writing image: " ++ image_path, "Saved metadata: " ++ metadata_path])
    else
      (fs1, ["File already exists: " ++ image_path])

/-! ## Concrete fixtures used by the closed theorems below -/

/-- A bird detection with the given score, shaped like the objects the
tests and `leroy.py` construct (label id 14, which the COCO label map
resolves to `'bird'`). -/
def birdObj (score : ℚ) : Obj :=
  ⟨14, score, ⟨0, 0, 1, 1⟩⟩

/-- A label map resolving id 14 to `'bird'`, as in the repository's tests. -/
def labelsBird : Labels :=
  fun i => if i = 14 then some "bird" else none

/-- The frame shape used by the repository's tests (`frame.shape =
(1536, 2048, 3)`). -/
def testFrame : Frame :=
  ⟨1536, 2048, 3⟩

/-- A qualifying bird detection at 85% confidence. -/
def q85 : Obj := birdObj (mkRat 85 100)

/-- Start a visitation, call `reset()`, then let a second bird start a new
visitation: the run whose final state exposes the id of the second
visitation. -/
def secondVisitationRun : PyResult (VisitationsState × List Capture) :=
  match runFrames 7 labelsBird 0 testFrame initState [[q85]] with
  | .ok (s, _) => update 7 labelsBird 0 (reset s) [q85] testFrame
  | .exn e => .exn e

/-- All frames nonempty and every detection in them qualifying: the shape
of input the quota claims quantify over (a sequence of qualifying bird
detections distributed over consecutive frames). -/
def AllQual (labels : Labels) (frames : List (List Obj)) : Prop :=
  ∀ f ∈ frames, f ≠ [] ∧ ∀ o ∈ f, Qualifies labels o

instance (labels : Labels) (frames : List (List Obj)) :
    Decidable (AllQual labels frames) := by
  unfold AllQual; infer_instance

/-- The invariant of the state machine after `k` qualifying detections and
`fc` frames have been processed from the initial state: the dead
`visitations` list stays empty, the quota maxima keep their defaults, the
boxed counter is `min k 11` and the full counter `min fc 2`, and the
machine is armed (`bboxes` nonempty, `visitation_id` the class uuid) as
soon as one detection has been seen. -/
def FrameInv (classUuid : ℕ) (k fc : ℕ) (s : VisitationsState) : Prop :=
  s.visitations = [] ∧
  s.photo_per_visitation_max = 10 ∧
  s.full_photo_per_visitation_max = 1 ∧
  s.photo_per_visitation_count = min k 11 ∧
  s.full_photo_per_visitation_count = min fc 2 ∧
  ((k = 0 ∧ s.bboxes = [] ∧ s.visitation_id = none) ∨
   (1 ≤ k ∧ s.bboxes ≠ [] ∧ s.visitation_id = some classUuid))

/-- Default record used for out-of-range list indexing in statements about
the best-photo selectors. -/
def defaultBRec : BRec := ⟨"", 0, 0⟩

/-! ## Theorems -/

/-- Claim C1 (code bug in `visitations.py`): the spec's timeout transition
never happens.  Concrete run: a visitation starts at `t0 = 0` (two bird
frames), then an `update()` with no detection arrives at `now = 301`, past
`visitation_max_seconds = 300`.  The call completes, but `visitation_id`
is still set and neither photo counter is reset — the reset branch (line
132) is unreachable because `add` never appends to `self.visitations`, and
reading `last_tracked` (line 134) would raise `NameError` anyway.  Even
calling `reset()` directly clears the counters but leaves `visitation_id`
untouched, contradicting the spec and the repository's own
`test_visitation_reset`.  No grace-window extension exists either:
`started_tracking` is never written (`none` throughout). -/
theorem c1_timeout_never_resets :
    (resSt (runFrames 7 labelsBird 301 testFrame initState [[q85], [q85], []])).map
        VisitationsState.visitation_id = some (some 7) ∧
    (resSt (runFrames 7 labelsBird 301 testFrame initState [[q85], [q85], []])).map
        VisitationsState.photo_per_visitation_count = some 2 ∧
    (resSt (runFrames 7 labelsBird 301 testFrame initState [[q85], [q85], []])).map
        VisitationsState.full_photo_per_visitation_count = some 2 ∧
    (resSt (runFrames 7 labelsBird 301 testFrame initState [[q85], [q85], []])).map
        VisitationsState.started_tracking = some none ∧
    (resSt (runFrames 7 labelsBird 301 testFrame initState [[q85], [q85], []])).map
        (fun s => (reset s).visitation_id) = some (some 7) ∧
    (resSt (runFrames 7 labelsBird 301 testFrame initState [[q85], [q85], []])).map
        (fun s => (reset s).photo_per_visitation_count) = some 0 := by
  refine ⟨?_, ?_, ?_, ?_, ?_, ?_⟩ <;> decide

/-- Claim C9 (code bug in `visitations.py`): `update()` with an empty
detection list raises while a visitation is active.  After one bird frame,
`visitation_id` is set and `full_photo_per_visitation_count = 1 ≤ 1`, so
the next empty-list call reaches `Photo.capture(frame, self.visitation_id,
percent, 'full')` (line 122) with the loop variable `percent` never
assigned — an `UnboundLocalError`, contradicting the spec's guarantee that
`update` cannot fail absent malformed geometry. -/
theorem c9_empty_update_raises :
    runFrames 7 labelsBird 0 testFrame initState [[q85], []]
      = .exn (.nameError "percent") := by decide

/-- Claim C5 (code bug in `visitations.py`): `Visitation.id` is a class
attribute (`id = uuid.uuid4()`, line 165) evaluated once at
class-definition time, and no `__init__` assigns a per-instance id.  Every
instance therefore carries the same id: a run of `n` constructions yields
`n` copies of the class uuid (first conjunct), and concretely the state
machine reuses the same visitation id after a `reset()` — the second
visitation of a session gets the id of the first (second conjunct). -/
theorem c5_all_visitations_share_one_id :
    (∀ (u n : ℕ), (mkVisitationRun u n).map VisitationObj.id
        = List.replicate n (visitationClassUuid u)) ∧
    ((resSt (runFrames 7 labelsBird 0 testFrame initState [[q85]])).map
        VisitationsState.visitation_id = some (some 7) ∧
     (resSt secondVisitationRun).map VisitationsState.visitation_id
        = some (some 7)) := by
  constructor
  · intro u n
    simp [mkVisitationRun, mkVisitation, visitationClassUuid]
  · constructor <;> decide

/-- Claim C6 (code bug in `visitation.py`): `parse` does not round-trip the
documented legacy layout.  First conjunct: on a path following the layout
documented in `parse`'s own docstring and the spec,
`<root>/<date>/<visitation_id>/<file>`, the code takes `path[-2]` — the
visitation-id directory — as the date (line 42), so `datetime.strptime`
raises an uncaught `ValueError`; nothing is recovered.  Second conjunct:
with the file placed directly under the date directory (the only layout
whose date parses), the species, detection score and classification score
of the `boxed_{time}_{det}_{species}_{cls}.png` form are recovered, but
`visitation_id` comes back as the file's basename (line 43 reads
`path[-1]`), not as any encoded visitation id. -/
theorem c6_parse_breaks_on_documented_layout :
    parse "2025-06-15" ⟨2025, 6, 15, 12, 0, 0⟩
        "/var/www/html/classified/2024-01-01/0a1b2c3d-e4f5-6789-abcd-ef0123456789/boxed_2024-01-01_10-30-00_85_blue-jay_90.png"
      = .exn .valueError ∧
    parse "2025-06-15" ⟨2025, 6, 15, 12, 0, 0⟩
        "/var/www/html/classified/2024-01-01/boxed_10-30-00_85_blue-jay_90.png"
      = .ok { filename := "/classified/2024-01-01/boxed_10-30-00_85_blue-jay_90.png"
              dt := ⟨2024, 1, 1, 10, 30, 0⟩
              detection_score := "85"
              visitation_id := "boxed_10-30-00_85_blue-jay_90.png"
              species := "blue jay"
              classification_score := "90" } := by
  constructor <;> decide

/-- Claim C3, counterexample: three consecutive frames each holding one
qualifying bird detection yield two `'full'`-photo submissions, not one:
the check `full_photo_per_visitation_count <= full_photo_per_visitation_max`
(line 120, max 1) still passes when the counter is 1. -/
theorem c3_three_frames_give_two_full_photos :
    (resEvents (runFrames 7 labelsBird 0 testFrame initState [[q85], [q85], [q85]])).map
        (countType "full") = some 2 := by decide

/-- Claim C4, counterexample: a bird detection with score 0.30 — at most
the spec's claimed 0.40 threshold — does start a visitation from the idle
state, because the code's actual gate is `int(100 * obj.score) > 20`
(line 87), a hard-coded 20%, not a configurable 0.40. -/
theorem c4_score_030_starts_visitation :
    mkRat 3 10 ≤ mkRat 2 5 ∧
    (resSt (runFrames 7 labelsBird 0 testFrame initState [[birdObj (mkRat 3 10)]])).map
        VisitationsState.visitation_id = some (some 7) := by
  constructor <;> decide

/-- Claim C7, counterexample: `parse` can raise.  The basename
`boxed_aa_bb_cc_dd.png` matches the boxed segment pattern, so `parse`
calls `datetime.strptime` on `"<today> aa"` — the `'aa'` time field makes
it raise `ValueError`, which nothing catches (`visitation.py` line 77). -/
theorem c7_parse_raises_on_malformed_time :
    parse "2025-06-15" ⟨2025, 6, 15, 12, 0, 0⟩ "boxed_aa_bb_cc_dd.png"
      = .exn .valueError := by decide

/-- Claim C8, counterexample: when no non-"full" record has a total score
strictly above the initial `best = 0`, `find_best_photo` returns the
initial `best_index = 0`, which here indexes a "full" image — the selection
is not "never a full image" — and `find_best_photo_for_species` returns
`None` rather than any maximizing record. -/
theorem c8_best_photo_can_return_full_image :
    find_best_photo (fun _ => 0)
        [⟨"/classified/2024-01-01/full_10-30-00_85.png", 85, 0⟩,
         ⟨"/classified/2024-01-01/boxed_10-30-00_0_x_0.png", 0, 0⟩] = 0 ∧
    isFullRec (⟨"/classified/2024-01-01/full_10-30-00_85.png", 85, 0⟩ : BRec) = true ∧
    find_best_photo_for_species (fun _ => 0)
        [⟨"/classified/2024-01-01/full_10-30-00_85.png", 85, 0⟩,
         ⟨"/classified/2024-01-01/boxed_10-30-00_0_x_0.png", 0, 0⟩] = none := by
  refine ⟨?_, by decide, ?_⟩ <;>
  · simp only [find_best_photo, findBestPhotoGo, find_best_photo_for_species,
      findBestForSpeciesGo]
    rw [if_pos (by decide), if_neg (by decide)]
    norm_num [totalScore]

/-- `countType` distributes over list append. -/
theorem countType_append (t : String) (a b : List Capture) :
    countType t (a ++ b) = countType t a + countType t b := by
  simp [countType, List.filter_append]

/-- The per-object loop never touches the `visitations` list, the two quota
maxima or the full-photo counter. -/
theorem processObjs_preserved (classUuid : ℕ) (labels : Labels) :
    ∀ (objs : List Obj) (s : VisitationsState) (acc : LoopAcc),
      (processObjs classUuid labels s acc objs).1.visitations = s.visitations ∧
      (processObjs classUuid labels s acc objs).1.photo_per_visitation_max
        = s.photo_per_visitation_max ∧
      (processObjs classUuid labels s acc objs).1.full_photo_per_visitation_count
        = s.full_photo_per_visitation_count ∧
      (processObjs classUuid labels s acc objs).1.full_photo_per_visitation_max
        = s.full_photo_per_visitation_max := by
  intro objs
  induction objs with
  | nil => intro s acc; simp [processObjs]
  | cons o rest ih =>
    intro s acc
    simp only [processObjs]
    split_ifs with hq h0 hcap <;> simp_all [addVisitation]

/-- Once the machine is armed (`bboxes` nonempty), the per-object loop
changes neither `bboxes` nor `visitation_id`: the `add` branch is guarded
by `len(self.bboxes) == 0`. -/
theorem processObjs_armed_stable (classUuid : ℕ) (labels : Labels) :
    ∀ (objs : List Obj) (s : VisitationsState) (acc : LoopAcc),
      s.bboxes ≠ [] →
      (processObjs classUuid labels s acc objs).1.bboxes = s.bboxes ∧
      (processObjs classUuid labels s acc objs).1.visitation_id = s.visitation_id := by
  intro objs
  induction objs with
  | nil => intro s acc _; simp [processObjs]
  | cons o rest ih =>
    intro s acc hb
    simp only [processObjs]
    split_ifs with hq h0 hcap hcap2 <;> first
      | exact absurd h0 hb
      | exact ih _ _ hb

/-- A first qualifying detection arms the machine: from an empty `bboxes`
list, the loop sets `visitation_id` to the class uuid and leaves `bboxes`
nonempty. -/
theorem processObjs_arms (classUuid : ℕ) (labels : Labels) :
    ∀ (objs : List Obj) (s : VisitationsState) (acc : LoopAcc),
      s.bboxes = [] → (∃ o ∈ objs, Qualifies labels o) →
      (processObjs classUuid labels s acc objs).1.bboxes ≠ [] ∧
      (processObjs classUuid labels s acc objs).1.visitation_id = some classUuid := by
  intro objs
  induction objs with
  | nil =>
    intro s acc _ hex
    simp at hex
  | cons o rest ih =>
    intro s acc hb hex
    simp only [processObjs]
    by_cases hq : Qualifies labels o
    · rw [if_pos (by exact hq)]
      rw [if_pos hb]
      have harm : ∀ (s' : VisitationsState) (acc' : LoopAcc),
          s'.bboxes = s.bboxes ++ [o.bbox] → s'.visitation_id = some classUuid →
          (processObjs classUuid labels s' acc' rest).1.bboxes ≠ [] ∧
          (processObjs classUuid labels s' acc' rest).1.visitation_id = some classUuid := by
        intro s' acc' h1 h2
        have hne : s'.bboxes ≠ [] := by simp [h1]
        have := processObjs_armed_stable classUuid labels rest s' acc' hne
        constructor
        · rw [this.1]; exact hne
        · rw [this.2]; exact h2
      split_ifs with hcap
      · exact harm _ _ (by simp [addVisitation, hb]) (by simp [addVisitation, mkVisitation])
      · exact harm _ _ (by simp [addVisitation, hb]) (by simp [addVisitation, mkVisitation])
    · rw [if_neg (by exact hq)]
      rcases hex with ⟨o', ho', hqo'⟩
      rcases List.mem_cons.mp ho' with h | h
      · exact absurd (h ▸ hqo') hq
      · exact ih _ _ hb ⟨o', h, hqo'⟩

/-- When no detection in the list qualifies, the loop leaves the whole
state unchanged and issues no capture; only the `percent` local is
rewritten. -/
theorem processObjs_no_qualifying (classUuid : ℕ) (labels : Labels) :
    ∀ (objs : List Obj) (s : VisitationsState) (acc : LoopAcc),
      (∀ o ∈ objs, ¬ Qualifies labels o) →
      (processObjs classUuid labels s acc objs).1 = s ∧
      (processObjs classUuid labels s acc objs).2.events = acc.events ∧
      (processObjs classUuid labels s acc objs).2.bird_detected = acc.bird_detected := by
  intro objs
  induction objs with
  | nil => intro s acc _; simp [processObjs]
  | cons o rest ih =>
    intro s acc hno
    simp only [processObjs]
    rw [if_neg (by exact hno o (by simp))]
    exact ih _ _ (fun o' h => hno o' (by simp [h]))

/-- The `bird_detected` flag is monotone through the loop. -/
theorem processObjs_bird_mono (classUuid : ℕ) (labels : Labels) :
    ∀ (objs : List Obj) (s : VisitationsState) (acc : LoopAcc),
      acc.bird_detected = true →
      (processObjs classUuid labels s acc objs).2.bird_detected = true := by
  intro objs
  induction objs with
  | nil => intro s acc h; simpa [processObjs] using h
  | cons o rest ih =>
    intro s acc h
    simp only [processObjs]
    split_ifs <;> exact ih _ _ (by simp_all)

/-- After a nonempty loop, the `percent` local has been assigned. -/
theorem processObjs_last_percent (classUuid : ℕ) (labels : Labels) :
    ∀ (objs : List Obj) (s : VisitationsState) (acc : LoopAcc),
      objs ≠ [] →
      ((processObjs classUuid labels s acc objs).2.lastPercent).isSome = true := by
  intro objs
  induction objs with
  | nil => intro s acc h; exact absurd rfl h
  | cons o rest ih =>
    intro s acc _
    simp only [processObjs]
    by_cases hrest : rest = []
    · subst hrest
      split_ifs <;> simp [processObjs]
    · split_ifs <;> exact ih _ _ hrest

/-- If every detection in the list qualifies, the loop sets
`bird_detected`. -/
theorem processObjs_bird_set (classUuid : ℕ) (labels : Labels) :
    ∀ (objs : List Obj) (s : VisitationsState) (acc : LoopAcc),
      objs ≠ [] → (∀ o ∈ objs, Qualifies labels o) →
      (processObjs classUuid labels s acc objs).2.bird_detected = true := by
  intro objs
  cases objs with
  | nil => intro s acc h; exact absurd rfl h
  | cons o rest =>
    intro s acc _ hall
    simp only [processObjs]
    rw [if_pos (by exact hall o (by simp))]
    split_ifs <;> exact processObjs_bird_mono classUuid labels rest _ _ rfl

/-- Quota behavior of the per-object loop on qualifying detections: with
the default maximum 10 and a boxed counter currently at `min k 11`, after
`objs.length` further qualifying detections the counter is
`min (k + objs.length) 11`, exactly that many further `'boxed'` captures
were issued (the `<=` check admits the eleventh), and no `'full'` capture
was issued by the loop. -/
theorem processObjs_count (classUuid : ℕ) (labels : Labels) :
    ∀ (objs : List Obj) (k : ℕ) (s : VisitationsState) (acc : LoopAcc),
      (∀ o ∈ objs, Qualifies labels o) →
      s.photo_per_visitation_max = 10 →
      s.photo_per_visitation_count = min k 11 →
      (processObjs classUuid labels s acc objs).1.photo_per_visitation_count
        = min (k + objs.length) 11 ∧
      countType "boxed" (processObjs classUuid labels s acc objs).2.events
        = countType "boxed" acc.events + (min (k + objs.length) 11 - min k 11) ∧
      countType "full" (processObjs classUuid labels s acc objs).2.events
        = countType "full" acc.events := by
  intro objs
  induction objs with
  | nil =>
    intro k s acc _ hmax hcount
    simp [processObjs, hcount]
  | cons o rest ih =>
    intro k s acc hall hmax hcount
    have hq : Qualifies labels o := hall o (by simp)
    have hrest : ∀ o' ∈ rest, Qualifies labels o' := fun o' h => hall o' (by simp [h])
    simp only [processObjs]
    rw [if_pos (by exact hq)]
    set s1 := if s.bboxes = [] then
        (fun p : VisitationsState × ℕ =>
          { p.1 with visitation_id := some p.2 }) (addVisitation classUuid s o)
      else s with hs1def
    have h1max : s1.photo_per_visitation_max = 10 := by
      by_cases hb : s.bboxes = [] <;> simp [hs1def, hb, addVisitation, hmax]
    have h1count : s1.photo_per_visitation_count = min k 11 := by
      by_cases hb : s.bboxes = [] <;> simp [hs1def, hb, addVisitation, hcount]
    by_cases hk : k ≤ 10
    · have hcap : s1.photo_per_visitation_count ≤ s1.photo_per_visitation_max := by
        rw [h1max, h1count]; omega
      rw [if_pos hcap]
      obtain ⟨hc, hb2, hf2⟩ := ih (k + 1)
        { s1 with photo_per_visitation_count := s1.photo_per_visitation_count + 1 }
        { events := acc.events ++ [⟨"boxed", s1.visitation_id, pyInt100 o.score⟩],
          bird_detected := true, lastPercent := some (pyInt100 o.score) }
        hrest (by simpa using h1max) (by simp [h1count]; omega)
      dsimp only at hc hb2 hf2
      rw [countType_append] at hb2 hf2
      have e1 : countType "boxed" [⟨"boxed", s1.visitation_id, pyInt100 o.score⟩] = 1 := by
        simp [countType]
      have e2 : countType "full" [⟨"boxed", s1.visitation_id, pyInt100 o.score⟩] = 0 := by
        simp [countType]
      rw [e1] at hb2
      rw [e2] at hf2
      refine ⟨?_, ?_, ?_⟩
      · rw [hc]; simp only [List.length_cons]; omega
      · rw [hb2]; simp only [List.length_cons]; omega
      · rw [hf2]; omega
    · have hcap : ¬ s1.photo_per_visitation_count ≤ s1.photo_per_visitation_max := by
        rw [h1max, h1count]; omega
      rw [if_neg hcap]
      obtain ⟨hc, hb2, hf2⟩ := ih (k + 1) s1
        { events := acc.events, bird_detected := true, lastPercent := some (pyInt100 o.score) }
        hrest h1max (by rw [h1count]; omega)
      dsimp only at hc hb2 hf2
      refine ⟨?_, ?_, ?_⟩
      · rw [hc]; simp only [List.length_cons]; omega
      · rw [hb2]; simp only [List.length_cons]; omega
      · rw [hf2]

/-- One `update` call on a nonempty frame of qualifying detections, from a
state satisfying the invariant: the call succeeds, the invariant advances
by the frame's detections and one frame, the `'boxed'` submissions of the
call are the boxed-counter increment, and one `'full'` submission is
issued exactly while `full_photo_per_visitation_count <= 1`. -/
theorem update_qualifying (classUuid : ℕ) (labels : Labels) (now : ℚ)
    (frame : Frame) (objs : List Obj) (k fc : ℕ) (s : VisitationsState)
    (hinv : FrameInv classUuid k fc s) (hne : objs ≠ [])
    (hall : ∀ o ∈ objs, Qualifies labels o) :
    ∃ s' evs, update classUuid labels now s objs frame = .ok (s', evs) ∧
      FrameInv classUuid (k + objs.length) (fc + 1) s' ∧
      countType "boxed" evs = min (k + objs.length) 11 - min k 11 ∧
      countType "full" evs = min (fc + 1) 2 - min fc 2 := by
  obtain ⟨hvis, hpmax, hfmax, hpcount, hfcount, harm⟩ := hinv
  have hpres := processObjs_preserved classUuid labels objs s ⟨[], false, none⟩
  have hcount := processObjs_count classUuid labels objs k s ⟨[], false, none⟩
    hall hpmax hpcount
  have hbird := processObjs_bird_set classUuid labels objs s ⟨[], false, none⟩ hne hall
  have hlast := processObjs_last_percent classUuid labels objs s ⟨[], false, none⟩ hne
  have harm' : (processObjs classUuid labels s ⟨[], false, none⟩ objs).1.bboxes ≠ [] ∧
      (processObjs classUuid labels s ⟨[], false, none⟩ objs).1.visitation_id
        = some classUuid := by
    rcases harm with ⟨hk0, hb0, hv0⟩ | ⟨hk1, hb1, hv1⟩
    · refine processObjs_arms classUuid labels objs s ⟨[], false, none⟩ hb0 ?_
      cases objs with
      | nil => exact absurd rfl hne
      | cons o rest => exact ⟨o, by simp, hall o (by simp)⟩
    · have hst := processObjs_armed_stable classUuid labels objs s ⟨[], false, none⟩ hb1
      exact ⟨hst.1 ▸ hb1, hst.2 ▸ hv1⟩
  obtain ⟨hlp, hlpv⟩ := Option.isSome_iff_exists.mp hlast
  have hn1 : 1 ≤ k + objs.length := by
    cases objs with
    | nil => exact absurd rfl hne
    | cons o rest => simp only [List.length_cons]; omega
  have hvis' : (processObjs classUuid labels s ⟨[], false, none⟩ objs).1.visitations
      = [] := hpres.1.trans hvis
  have hsome : ((processObjs classUuid labels s ⟨[], false, none⟩
      objs).1.visitation_id).isSome = true := by rw [harm'.2]; rfl
  by_cases hfc : fc ≤ 1
  · have h1 : (processObjs classUuid labels s ⟨[], false, none⟩
        objs).1.full_photo_per_visitation_count ≤
        (processObjs classUuid labels s ⟨[], false, none⟩
        objs).1.full_photo_per_visitation_max := by
      rw [hpres.2.2.1, hpres.2.2.2, hfcount, hfmax]; omega
    have hupd : update classUuid labels now s objs frame =
        .ok ({ (processObjs classUuid labels s ⟨[], false, none⟩ objs).1 with
                 full_photo_per_visitation_count :=
                   (processObjs classUuid labels s ⟨[], false, none⟩
                     objs).1.full_photo_per_visitation_count + 1 },
             (processObjs classUuid labels s ⟨[], false, none⟩ objs).2.events ++
               [⟨"full", (processObjs classUuid labels s ⟨[], false, none⟩
                   objs).1.visitation_id, hlp⟩]) := by
      simp only [update]
      rw [if_pos h1, if_pos hsome, hlpv]
      dsimp only
      rw [if_neg (by simp [hbird])]
    refine ⟨_, _, hupd, ⟨?_, ?_, ?_, ?_, ?_, ?_⟩, ?_, ?_⟩
    · simpa using hvis'
    · simpa using hpres.2.1.trans hpmax
    · simpa using hpres.2.2.2.trans hfmax
    · simpa using hcount.1
    · have : (processObjs classUuid labels s ⟨[], false, none⟩
          objs).1.full_photo_per_visitation_count = min fc 2 :=
        hpres.2.2.1.trans hfcount
      dsimp only
      rw [this]
      omega
    · right
      exact ⟨hn1, by simpa using harm'.1, by simpa using harm'.2⟩
    · rw [countType_append, hcount.2.1]
      have : countType "boxed" [⟨"full", (processObjs classUuid labels s
          ⟨[], false, none⟩ objs).1.visitation_id, hlp⟩] = 0 := by simp [countType]
      rw [this]
      simp [countType]
    · rw [countType_append, hcount.2.2]
      have : countType "full" [⟨"full", (processObjs classUuid labels s
          ⟨[], false, none⟩ objs).1.visitation_id, hlp⟩] = 1 := by simp [countType]
      rw [this]
      simp [countType]
      omega
  · have h1 : ¬ ((processObjs classUuid labels s ⟨[], false, none⟩
        objs).1.full_photo_per_visitation_count ≤
        (processObjs classUuid labels s ⟨[], false, none⟩
        objs).1.full_photo_per_visitation_max) := by
      rw [hpres.2.2.1, hpres.2.2.2, hfcount, hfmax]; omega
    have hupd : update classUuid labels now s objs frame =
        .ok ((processObjs classUuid labels s ⟨[], false, none⟩ objs).1,
             (processObjs classUuid labels s ⟨[], false, none⟩ objs).2.events) := by
      simp only [update]
      rw [if_neg h1]
      dsimp only
      rw [if_neg (by simp [hbird])]
    refine ⟨_, _, hupd, ⟨?_, ?_, ?_, ?_, ?_, ?_⟩, ?_, ?_⟩
    · exact hvis'
    · exact hpres.2.1.trans hpmax
    · exact hpres.2.2.2.trans hfmax
    · exact hcount.1
    · rw [hpres.2.2.1, hfcount]; omega
    · right
      exact ⟨hn1, harm'.1, harm'.2⟩
    · rw [hcount.2.1]
      simp [countType]
    · rw [hcount.2.2]
      simp [countType]
      omega

/-- Running any sequence of nonempty all-qualifying frames from a state
satisfying the invariant: every call succeeds and the boxed/full
submission totals are the increments of `min (… ) 11` and `min (…) 2`. -/
theorem runFrames_qualifying (classUuid : ℕ) (labels : Labels) (now : ℚ)
    (frame : Frame) :
    ∀ (frames : List (List Obj)) (k fc : ℕ) (s : VisitationsState),
      FrameInv classUuid k fc s → AllQual labels frames →
      ∃ s' evs, runFrames classUuid labels now frame s frames = .ok (s', evs) ∧
        FrameInv classUuid (k + totalObjs frames) (fc + frames.length) s' ∧
        countType "boxed" evs = min (k + totalObjs frames) 11 - min k 11 ∧
        countType "full" evs = min (fc + frames.length) 2 - min fc 2 := by
  intro frames
  induction frames with
  | nil =>
    intro k fc s hinv _
    refine ⟨s, [], rfl, ?_, ?_, ?_⟩
    · simpa [totalObjs] using hinv
    · simp [countType, totalObjs]
    · simp [countType]
  | cons f rest ih =>
    intro k fc s hinv hall
    obtain ⟨hne, hq⟩ := hall f (by simp)
    obtain ⟨s1, ev1, hu, hinv1, hb1, hf1⟩ :=
      update_qualifying classUuid labels now frame f k fc s hinv hne hq
    obtain ⟨s2, ev2, hr, hinv2, hb2, hf2⟩ :=
      ih (k + f.length) (fc + 1) s1 hinv1
        (fun g hg => hall g (by simp [hg]))
    refine ⟨s2, ev1 ++ ev2, ?_, ?_, ?_, ?_⟩
    · simp only [runFrames]
      rw [hu]
      dsimp only
      rw [hr]
    · have : k + f.length + totalObjs rest = k + totalObjs (f :: rest) := by
        simp [totalObjs]; omega
      rw [this] at hinv2
      have : fc + 1 + rest.length = fc + (f :: rest).length := by
        simp; omega
      rwa [this] at hinv2
    · rw [countType_append, hb1, hb2]
      have h1 : totalObjs (f :: rest) = f.length + totalObjs rest := by
        simp [totalObjs]
      rw [h1]
      omega
    · rw [countType_append, hf1, hf2]
      have h1 : (f :: rest).length = rest.length + 1 := by simp
      rw [h1]
      omega

/-- The initial class-attribute state satisfies the invariant with no
detections and no frames processed. -/
theorem initState_inv (classUuid : ℕ) : FrameInv classUuid 0 0 initState := by
  refine ⟨rfl, rfl, rfl, rfl, rfl, Or.inl ⟨rfl, rfl, rfl⟩⟩

/-- Claim C2 (confirmed): for any distribution of `N` qualifying bird
detections over nonempty consecutive frames starting from the initial
state, every `update` succeeds and `photo_per_visitation_count` ends at
`min (N, photo_per_visitation_max + 1) = min N 11` (default maximum 10):
the `<=` quota check of `visitations.py` line 96 admits exactly one boxed
capture beyond the nominal maximum and never more — the number of
`'boxed'` submissions equals the counter. -/
theorem c2_boxed_quota_min_n_eleven (classUuid : ℕ) (labels : Labels)
    (now : ℚ) (frame : Frame) (frames : List (List Obj))
    (hall : AllQual labels frames) :
    ∃ s' evs, runFrames classUuid labels now frame initState frames = .ok (s', evs) ∧
      s'.photo_per_visitation_count = min (totalObjs frames) 11 ∧
      countType "boxed" evs = min (totalObjs frames) 11 := by
  obtain ⟨s', evs, hr, hinv, hb, _⟩ := runFrames_qualifying classUuid labels now
    frame frames 0 0 initState (initState_inv classUuid) hall
  exact ⟨s', evs, hr, by simpa using hinv.2.2.2.1, by simpa using hb⟩

/-- Witness for C2: two frames of one qualifying detection each give a
boxed counter of `min 2 11 = 2`. -/
theorem c2_boxed_quota_min_n_eleven_witness :
    AllQual labelsBird [[q85], [q85]] ∧
    ∃ s' evs, runFrames 7 labelsBird 0 testFrame initState [[q85], [q85]]
        = .ok (s', evs) ∧
      s'.photo_per_visitation_count = min (totalObjs [[q85], [q85]]) 11 ∧
      countType "boxed" evs = min (totalObjs [[q85], [q85]]) 11 :=
  ⟨by decide, c2_boxed_quota_min_n_eleven 7 labelsBird 0 testFrame [[q85], [q85]]
    (by decide)⟩

/-- Claim C3, amended (corrected): the whole frame is submitted as a
`'full'` photo at most `full_photo_per_visitation_max + 1 = 2` times per
visitation, not exactly once: over any run of nonempty all-qualifying
frames from the initial state the number of `'full'` submissions is
`min (number of frames) 2` — in particular the three-frame scenario of the
claim yields exactly 2 full submissions. -/
theorem c3_full_photo_quota_min_frames_two (classUuid : ℕ) (labels : Labels)
    (now : ℚ) (frame : Frame) (frames : List (List Obj))
    (hall : AllQual labels frames) :
    ∃ s' evs, runFrames classUuid labels now frame initState frames = .ok (s', evs) ∧
      s'.full_photo_per_visitation_count = min frames.length 2 ∧
      countType "full" evs = min frames.length 2 := by
  obtain ⟨s', evs, hr, hinv, _, hf⟩ := runFrames_qualifying classUuid labels now
    frame frames 0 0 initState (initState_inv classUuid) hall
  exact ⟨s', evs, hr, by simpa using hinv.2.2.2.2.1, by simpa using hf⟩

/-- Witness for the amended C3: three qualifying frames give exactly
`min 3 2 = 2` full submissions. -/
theorem c3_full_photo_quota_min_frames_two_witness :
    AllQual labelsBird [[q85], [q85], [q85]] ∧
    ∃ s' evs, runFrames 7 labelsBird 0 testFrame initState [[q85], [q85], [q85]]
        = .ok (s', evs) ∧
      s'.full_photo_per_visitation_count = min [[q85], [q85], [q85]].length 2 ∧
      countType "full" evs = min [[q85], [q85], [q85]].length 2 :=
  ⟨by decide, c3_full_photo_quota_min_frames_two 7 labelsBird 0 testFrame
    [[q85], [q85], [q85]] (by decide)⟩

/-- Claim C4, amended (corrected): from the initial state, one `update`
call starts a visitation exactly when the frame holds a detection whose
resolved label is `'bird'` with `int(100 * score) > 20` — the hard-coded
20% gate of `visitations.py` line 87, not a configurable 0.40 threshold —
and the guard for assigning a fresh visitation is `len(self.bboxes) == 0`
(empty in the initial state).  First conjunct: some qualifying detection
present ⇒ the call succeeds and `visitation_id` becomes the class uuid.
Second conjunct: no qualifying detection ⇒ the call succeeds and
`visitation_id` stays `None`. -/
theorem c4_threshold_is_twenty_percent (classUuid : ℕ) (labels : Labels)
    (now : ℚ) (frame : Frame) (objs : List Obj) :
    ((∃ o ∈ objs, Qualifies labels o) →
      ∃ s' evs, update classUuid labels now initState objs frame = .ok (s', evs) ∧
        s'.visitation_id = some classUuid) ∧
    ((∀ o ∈ objs, ¬ Qualifies labels o) →
      ∃ s' evs, update classUuid labels now initState objs frame = .ok (s', evs) ∧
        s'.visitation_id = none) := by
  constructor
  · intro hex
    have hne : objs ≠ [] := by
      rcases hex with ⟨o, ho, _⟩
      intro h
      rw [h] at ho
      simp at ho
    have hpres := processObjs_preserved classUuid labels objs initState ⟨[], false, none⟩
    have harm := processObjs_arms classUuid labels objs initState ⟨[], false, none⟩
      rfl hex
    have hlast := processObjs_last_percent classUuid labels objs initState
      ⟨[], false, none⟩ hne
    obtain ⟨hlp, hlpv⟩ := Option.isSome_iff_exists.mp hlast
    have h1 : (processObjs classUuid labels initState ⟨[], false, none⟩
        objs).1.full_photo_per_visitation_count ≤
        (processObjs classUuid labels initState ⟨[], false, none⟩
        objs).1.full_photo_per_visitation_max := by
      rw [hpres.2.2.1, hpres.2.2.2]
      decide
    have hsome : ((processObjs classUuid labels initState ⟨[], false, none⟩
        objs).1.visitation_id).isSome = true := by rw [harm.2]; rfl
    have hupd : update classUuid labels now initState objs frame =
        .ok ({ (processObjs classUuid labels initState ⟨[], false, none⟩ objs).1 with
                 full_photo_per_visitation_count :=
                   (processObjs classUuid labels initState ⟨[], false, none⟩
                     objs).1.full_photo_per_visitation_count + 1 },
             (processObjs classUuid labels initState ⟨[], false, none⟩ objs).2.events ++
               [⟨"full", (processObjs classUuid labels initState ⟨[], false, none⟩
                   objs).1.visitation_id, hlp⟩]) := by
      simp only [update]
      rw [if_pos h1, if_pos hsome, hlpv]
      dsimp only
      rw [if_neg (by rw [hpres.1]; simp [initState])]
    exact ⟨_, _, hupd, by simpa using harm.2⟩
  · intro hno
    have h := processObjs_no_qualifying classUuid labels objs initState
      ⟨[], false, none⟩ hno
    have h1 : (processObjs classUuid labels initState ⟨[], false, none⟩
        objs).1.full_photo_per_visitation_count ≤
        (processObjs classUuid labels initState ⟨[], false, none⟩
        objs).1.full_photo_per_visitation_max := by
      rw [h.1]
      decide
    have hupd : update classUuid labels now initState objs frame =
        .ok ((processObjs classUuid labels initState ⟨[], false, none⟩ objs).1,
             (processObjs classUuid labels initState ⟨[], false, none⟩ objs).2.events) := by
      simp only [update]
      rw [if_pos h1, if_neg (by rw [h.1]; decide)]
      dsimp only
      rw [if_neg (by rw [h.1]; simp [initState])]
    exact ⟨_, _, hupd, by rw [h.1]; rfl⟩

/-- Witness for the amended C4: a 30% bird starts a visitation (first
conjunct at `objs = [birdObj (mkRat 3 10)]`), and a 20% bird does not
(second conjunct at `objs = [birdObj (mkRat 1 5)]`). -/
theorem c4_threshold_is_twenty_percent_witness :
    ((∃ o ∈ [birdObj (mkRat 3 10)], Qualifies labelsBird o) ∧
      ∃ s' evs, update 7 labelsBird 0 initState [birdObj (mkRat 3 10)] testFrame
          = .ok (s', evs) ∧ s'.visitation_id = some 7) ∧
    ((∀ o ∈ [birdObj (mkRat 1 5)], ¬ Qualifies labelsBird o) ∧
      ∃ s' evs, update 7 labelsBird 0 initState [birdObj (mkRat 1 5)] testFrame
          = .ok (s', evs) ∧ s'.visitation_id = none) :=
  ⟨⟨by decide, (c4_threshold_is_twenty_percent 7 labelsBird 0 testFrame
      [birdObj (mkRat 3 10)]).1 (by decide)⟩,
   ⟨by decide, (c4_threshold_is_twenty_percent 7 labelsBird 0 testFrame
      [birdObj (mkRat 1 5)]).2 (by decide)⟩⟩

/-- The percent computation `pyInt100` is literally `int(100 * score)`:
forming the product on the numerator does not change the rational. -/
theorem pyInt100_eq_pyInt (q : ℚ) : pyInt100 q = pyInt (100 * q) := by
  unfold pyInt100
  congr 1
  rw [Rat.mkRat_eq_divInt, Rat.divInt_eq_div]
  push_cast
  rw [mul_div_assoc, Rat.num_div_den]

/-- Claim C7, amended (corrected): `parse` returns the best-effort default
record without raising whenever the basename matches neither the
boxed-with-four-data-segments pattern nor the full-with-two-data-segments
pattern; when one of those patterns matches, a malformed date or time
string makes the uncaught `datetime.strptime` `ValueError` propagate (the
counterexample above), so the never-raises guarantee does not hold in
general. -/
theorem c7_parse_defaults_off_pattern (nowDate : String) (now : DT) (f : String)
    (hb : ¬ (photoTypeOf f = "boxed" ∧ 4 ≤ (dataOf f).length))
    (hf : ¬ (photoTypeOf f = "full" ∧ 2 ≤ (dataOf f).length)) :
    parse nowDate now f = .ok (fallbackRecord now f) := by
  simp only [parse]
  rw [if_neg hb, if_neg hf]
  split <;> rfl

/-- Witness for the amended C7: `"x.png"` matches neither pattern and
parses to the default record. -/
theorem c7_parse_defaults_off_pattern_witness :
    (¬ (photoTypeOf "x.png" = "boxed" ∧ 4 ≤ (dataOf "x.png").length)) ∧
    (¬ (photoTypeOf "x.png" = "full" ∧ 2 ≤ (dataOf "x.png").length)) ∧
    parse "2025-06-15" ⟨2025, 6, 15, 12, 0, 0⟩ "x.png"
      = .ok (fallbackRecord ⟨2025, 6, 15, 12, 0, 0⟩ "x.png") :=
  ⟨by decide, by decide,
   c7_parse_defaults_off_pattern "2025-06-15" ⟨2025, 6, 15, 12, 0, 0⟩ "x.png"
     (by decide) (by decide)⟩

/-- `mkdirs` only creates a directory; it never touches file contents. -/
theorem mkdirsFS_files (fs : FS) (d : String) : (mkdirsFS fs d).files = fs.files := by
  unfold mkdirsFS
  split <;> rfl

/-- Claim C10 (confirmed): `photo.save` never overwrites.  If a file
already exists at the computed image path, the filesystem's file contents
are left entirely unchanged — neither the image nor its metadata sidecar
is written — and, when the disk-space check passes so that the call
reaches the existence check, the skip is logged as
`"File already exists: <path>"`. -/
theorem c10_save_never_overwrites (env : SaveEnv) (fs : FS) (frame : Image)
    (visitation_id photo_type : String)
    (hex : isfile fs (savedImagePath env visitation_id photo_type) = true) :
    (save env fs frame visitation_id photo_type).1.files = fs.files ∧
    (has_disk_space env = true →
      ("File already exists: " ++ savedImagePath env visitation_id photo_type)
        ∈ (save env fs frame visitation_id photo_type).2) := by
  unfold save
  by_cases hd : has_disk_space env
  · rw [if_neg (by simp [hd])]
    have hex1 : isfile (mkdirsFS fs (mkdirsDir env visitation_id))
        (savedImagePath env visitation_id photo_type) = true := by
      unfold isfile
      rw [mkdirsFS_files]
      exact hex
    rw [if_neg (by simp [hex1])]
    exact ⟨mkdirsFS_files fs (mkdirsDir env visitation_id), fun _ => by simp⟩
  · rw [if_pos (by simp [hd])]
    exact ⟨rfl, fun h => absurd h (by simpa using hd)⟩

/-- Witness for C10: a filesystem already holding a file at the computed
image path is returned unchanged, with the warning logged. -/
theorem c10_save_never_overwrites_witness :
    (isfile ⟨[("storage/detected/2025-06-15/v1/abc.png", .image 5)], []⟩
        (savedImagePath ⟨50, "abc", "2025-06-15", 9⟩ "v1" "boxed") = true) ∧
    ((save ⟨50, "abc", "2025-06-15", 9⟩
        ⟨[("storage/detected/2025-06-15/v1/abc.png", .image 5)], []⟩
        ⟨1, 2, 3⟩ "v1" "boxed").1.files
      = [("storage/detected/2025-06-15/v1/abc.png", FileData.image 5)] ∧
     (has_disk_space ⟨50, "abc", "2025-06-15", 9⟩ = true →
       ("File already exists: " ++
           savedImagePath ⟨50, "abc", "2025-06-15", 9⟩ "v1" "boxed")
         ∈ (save ⟨50, "abc", "2025-06-15", 9⟩
             ⟨[("storage/detected/2025-06-15/v1/abc.png", .image 5)], []⟩
             ⟨1, 2, 3⟩ "v1" "boxed").2)) :=
  ⟨by decide,
   c10_save_never_overwrites ⟨50, "abc", "2025-06-15", 9⟩
     ⟨[("storage/detected/2025-06-15/v1/abc.png", .image 5)], []⟩
     ⟨1, 2, 3⟩ "v1" "boxed" (by decide)⟩

/-- If no non-"full" record beats the running best, the `find_best_photo`
loop keeps its current `best_index`. -/
theorem findBestPhotoGo_stays (clarityOf : String → ℚ) :
    ∀ (l : List BRec) (best : ℚ) (bi idx : ℕ),
      (∀ r ∈ l, isFullRec r = false → totalScore clarityOf r ≤ best) →
      findBestPhotoGo clarityOf best bi idx l = bi := by
  intro l
  induction l with
  | nil => intro best bi idx _; rfl
  | cons r rest ih =>
    intro best bi idx hall
    simp only [findBestPhotoGo]
    by_cases hfull : isFullRec r
    · rw [if_pos hfull]
      exact ih best bi (idx + 1) (fun r' h hr' => hall r' (by simp [h]) hr')
    · rw [if_neg hfull]
      have hle : totalScore clarityOf r ≤ best :=
        hall r (by simp) (by simpa using hfull)
      rw [if_neg (by exact not_lt.mpr hle)]
      exact ih best bi (idx + 1) (fun r' h hr' => hall r' (by simp [h]) hr')

/-- If some non-"full" record beats the running best, the `find_best_photo`
loop lands on the first index (offset from `idx`) attaining the maximal
total score among non-"full" records that beat `best`. -/
theorem findBestPhotoGo_finds (clarityOf : String → ℚ) :
    ∀ (l : List BRec) (best : ℚ) (bi idx : ℕ),
      (∃ r ∈ l, isFullRec r = false ∧ best < totalScore clarityOf r) →
      ∃ k, k < l.length ∧
        findBestPhotoGo clarityOf best bi idx l = idx + k ∧
        isFullRec (l.getD k defaultBRec) = false ∧
        best < totalScore clarityOf (l.getD k defaultBRec) ∧
        (∀ r ∈ l, isFullRec r = false →
          totalScore clarityOf r ≤ totalScore clarityOf (l.getD k defaultBRec)) ∧
        (∀ j < k, isFullRec (l.getD j defaultBRec) = false →
          totalScore clarityOf (l.getD j defaultBRec)
            < totalScore clarityOf (l.getD k defaultBRec)) := by
  intro l
  induction l with
  | nil => intro best bi idx hex; simp at hex
  | cons r rest ih =>
    intro best bi idx hex
    simp only [findBestPhotoGo]
    by_cases hfull : isFullRec r
    · rw [if_pos hfull]
      have hex' : ∃ r' ∈ rest, isFullRec r' = false ∧ best < totalScore clarityOf r' := by
        rcases hex with ⟨r', hr', hnf, hlt⟩
        rcases List.mem_cons.mp hr' with h | h
        · rw [h] at hnf; rw [hnf] at hfull; simp at hfull
        · exact ⟨r', h, hnf, hlt⟩
      obtain ⟨k, hk, heq, hnf, hlt, hmax, hfirst⟩ := ih best bi (idx + 1) hex'
      refine ⟨k + 1, by simpa using Nat.succ_lt_succ hk, by rw [heq]; omega, ?_, ?_, ?_, ?_⟩
      · simpa [List.getD_cons_succ] using hnf
      · simpa [List.getD_cons_succ] using hlt
      · intro r' hr' hnf'
        rcases List.mem_cons.mp hr' with h | h
        · rw [h] at hnf'; rw [hnf'] at hfull; simp at hfull
        · simpa [List.getD_cons_succ] using hmax r' h hnf'
      · intro j hj hnf'
        cases j with
        | zero =>
          simp only [List.getD_cons_zero] at hnf'
          rw [hnf'] at hfull; simp at hfull
        | succ j' =>
          simp only [List.getD_cons_succ] at hnf' ⊢
          exact hfirst j' (by omega) hnf'
    · rw [if_neg hfull]
      by_cases hlt : best < totalScore clarityOf r
      · rw [if_pos hlt]
        by_cases hrest : ∃ r' ∈ rest, isFullRec r' = false ∧
            totalScore clarityOf r < totalScore clarityOf r'
        · obtain ⟨k, hk, heq, hnf, hlt2, hmax, hfirst⟩ :=
            ih (totalScore clarityOf r) idx (idx + 1) hrest
          refine ⟨k + 1, by simpa using Nat.succ_lt_succ hk, by rw [heq]; omega,
            ?_, ?_, ?_, ?_⟩
          · simpa [List.getD_cons_succ] using hnf
          · simp only [List.getD_cons_succ]
            exact lt_trans hlt hlt2
          · intro r' hr' hnf'
            rcases List.mem_cons.mp hr' with h | h
            · rw [h]
              simp only [List.getD_cons_succ]
              exact le_of_lt hlt2
            · simpa [List.getD_cons_succ] using hmax r' h hnf'
          · intro j hj hnf'
            cases j with
            | zero =>
              simp only [List.getD_cons_zero] at hnf' ⊢
              simpa [List.getD_cons_succ] using hlt2
            | succ j' =>
              simp only [List.getD_cons_succ] at hnf' ⊢
              exact hfirst j' (by omega) hnf'
        · push_neg at hrest
          have hstay := findBestPhotoGo_stays clarityOf rest (totalScore clarityOf r)
            idx (idx + 1) (fun r' h hnf' => hrest r' h hnf')
          refine ⟨0, by simp, by rw [hstay]; omega, by simpa using hfull, ?_, ?_, ?_⟩
          · simpa using hlt
          · intro r' hr' hnf'
            rcases List.mem_cons.mp hr' with h | h
            · rw [h]; simp
            · simpa using hrest r' h hnf'
          · intro j hj _
            omega
      · rw [if_neg hlt]
        have hex' : ∃ r' ∈ rest, isFullRec r' = false ∧ best < totalScore clarityOf r' := by
          rcases hex with ⟨r', hr', hnf, hl⟩
          rcases List.mem_cons.mp hr' with h | h
          · rw [← h] at hlt; exact absurd hl hlt
          · exact ⟨r', h, hnf, hl⟩
        obtain ⟨k, hk, heq, hnf, hlt2, hmax, hfirst⟩ := ih best bi (idx + 1) hex'
        refine ⟨k + 1, by simpa using Nat.succ_lt_succ hk, by rw [heq]; omega,
          ?_, ?_, ?_, ?_⟩
        · simpa [List.getD_cons_succ] using hnf
        · simpa [List.getD_cons_succ] using hlt2
        · intro r' hr' hnf'
          rcases List.mem_cons.mp hr' with h | h
          · rw [h]
            simp only [List.getD_cons_succ]
            have h1 : totalScore clarityOf r ≤ best := not_lt.mp hlt
            exact le_of_lt (lt_of_le_of_lt h1 hlt2)
          · simpa [List.getD_cons_succ] using hmax r' h hnf'
        · intro j hj hnf'
          cases j with
          | zero =>
            simp only [List.getD_cons_zero] at hnf' ⊢
            simp only [List.getD_cons_succ]
            exact lt_of_le_of_lt (not_lt.mp hlt) hlt2
          | succ j' =>
            simp only [List.getD_cons_succ] at hnf' ⊢
            exact hfirst j' (by omega) hnf'

/-- If no non-"full" record beats the running best, the
`find_best_photo_for_species` loop keeps its current `best_record`. -/
theorem findBestForSpeciesGo_stays (clarityOf : String → ℚ) :
    ∀ (l : List BRec) (best : ℚ) (br : Option BRec),
      (∀ r ∈ l, isFullRec r = false → totalScore clarityOf r ≤ best) →
      findBestForSpeciesGo clarityOf best br l = br := by
  intro l
  induction l with
  | nil => intro best br _; rfl
  | cons r rest ih =>
    intro best br hall
    simp only [findBestForSpeciesGo]
    by_cases hfull : isFullRec r
    · rw [if_pos hfull]
      exact ih best br (fun r' h hr' => hall r' (by simp [h]) hr')
    · rw [if_neg hfull]
      have hle : totalScore clarityOf r ≤ best :=
        hall r (by simp) (by simpa using hfull)
      rw [if_neg (by exact not_lt.mpr hle)]
      exact ih best br (fun r' h hr' => hall r' (by simp [h]) hr')

/-- If some non-"full" record beats the running best, the
`find_best_photo_for_species` loop returns the record at the first index
attaining the maximal total score among non-"full" records beating
`best` — the same index `find_best_photo` computes. -/
theorem findBestForSpeciesGo_finds (clarityOf : String → ℚ) :
    ∀ (l : List BRec) (best : ℚ) (br : Option BRec),
      (∃ r ∈ l, isFullRec r = false ∧ best < totalScore clarityOf r) →
      ∃ k, k < l.length ∧
        findBestForSpeciesGo clarityOf best br l = some (l.getD k defaultBRec) ∧
        isFullRec (l.getD k defaultBRec) = false ∧
        best < totalScore clarityOf (l.getD k defaultBRec) ∧
        (∀ r ∈ l, isFullRec r = false →
          totalScore clarityOf r ≤ totalScore clarityOf (l.getD k defaultBRec)) ∧
        (∀ j < k, isFullRec (l.getD j defaultBRec) = false →
          totalScore clarityOf (l.getD j defaultBRec)
            < totalScore clarityOf (l.getD k defaultBRec)) := by
  intro l
  induction l with
  | nil => intro best br hex; simp at hex
  | cons r rest ih =>
    intro best br hex
    simp only [findBestForSpeciesGo]
    by_cases hfull : isFullRec r
    · rw [if_pos hfull]
      have hex' : ∃ r' ∈ rest, isFullRec r' = false ∧ best < totalScore clarityOf r' := by
        rcases hex with ⟨r', hr', hnf, hlt⟩
        rcases List.mem_cons.mp hr' with h | h
        · rw [h] at hnf; rw [hnf] at hfull; simp at hfull
        · exact ⟨r', h, hnf, hlt⟩
      obtain ⟨k, hk, heq, hnf, hlt, hmax, hfirst⟩ := ih best br hex'
      refine ⟨k + 1, by simpa using Nat.succ_lt_succ hk,
        by simpa [List.getD_cons_succ] using heq, ?_, ?_, ?_, ?_⟩
      · simpa [List.getD_cons_succ] using hnf
      · simpa [List.getD_cons_succ] using hlt
      · intro r' hr' hnf'
        rcases List.mem_cons.mp hr' with h | h
        · rw [h] at hnf'; rw [hnf'] at hfull; simp at hfull
        · simpa [List.getD_cons_succ] using hmax r' h hnf'
      · intro j hj hnf'
        cases j with
        | zero =>
          simp only [List.getD_cons_zero] at hnf'
          rw [hnf'] at hfull; simp at hfull
        | succ j' =>
          simp only [List.getD_cons_succ] at hnf' ⊢
          exact hfirst j' (by omega) hnf'
    · rw [if_neg hfull]
      by_cases hlt : best < totalScore clarityOf r
      · rw [if_pos hlt]
        by_cases hrest : ∃ r' ∈ rest, isFullRec r' = false ∧
            totalScore clarityOf r < totalScore clarityOf r'
        · obtain ⟨k, hk, heq, hnf, hlt2, hmax, hfirst⟩ :=
            ih (totalScore clarityOf r) (some r) hrest
          refine ⟨k + 1, by simpa using Nat.succ_lt_succ hk,
            by simpa [List.getD_cons_succ] using heq, ?_, ?_, ?_, ?_⟩
          · simpa [List.getD_cons_succ] using hnf
          · simp only [List.getD_cons_succ]
            exact lt_trans hlt hlt2
          · intro r' hr' hnf'
            rcases List.mem_cons.mp hr' with h | h
            · rw [h]
              simp only [List.getD_cons_succ]
              exact le_of_lt hlt2
            · simpa [List.getD_cons_succ] using hmax r' h hnf'
          · intro j hj hnf'
            cases j with
            | zero =>
              simp only [List.getD_cons_zero] at hnf' ⊢
              simpa [List.getD_cons_succ] using hlt2
            | succ j' =>
              simp only [List.getD_cons_succ] at hnf' ⊢
              exact hfirst j' (by omega) hnf'
        · push_neg at hrest
          have hstay := findBestForSpeciesGo_stays clarityOf rest
            (totalScore clarityOf r) (some r) (fun r' h hnf' => hrest r' h hnf')
          refine ⟨0, by simp, by rw [hstay]; simp, by simpa using hfull, ?_, ?_, ?_⟩
          · simpa using hlt
          · intro r' hr' hnf'
            rcases List.mem_cons.mp hr' with h | h
            · rw [h]; simp
            · simpa using hrest r' h hnf'
          · intro j hj _
            omega
      · rw [if_neg hlt]
        have hex' : ∃ r' ∈ rest, isFullRec r' = false ∧ best < totalScore clarityOf r' := by
          rcases hex with ⟨r', hr', hnf, hl⟩
          rcases List.mem_cons.mp hr' with h | h
          · rw [← h] at hlt; exact absurd hl hlt
          · exact ⟨r', h, hnf, hl⟩
        obtain ⟨k, hk, heq, hnf, hlt2, hmax, hfirst⟩ := ih best br hex'
        refine ⟨k + 1, by simpa using Nat.succ_lt_succ hk,
          by simpa [List.getD_cons_succ] using heq, ?_, ?_, ?_, ?_⟩
        · simpa [List.getD_cons_succ] using hnf
        · simpa [List.getD_cons_succ] using hlt2
        · intro r' hr' hnf'
          rcases List.mem_cons.mp hr' with h | h
          · rw [h]
            simp only [List.getD_cons_succ]
            exact le_of_lt (lt_of_le_of_lt (not_lt.mp hlt) hlt2)
          · simpa [List.getD_cons_succ] using hmax r' h hnf'
        · intro j hj hnf'
          cases j with
          | zero =>
            simp only [List.getD_cons_zero] at hnf' ⊢
            simp only [List.getD_cons_succ]
            exact lt_of_le_of_lt (not_lt.mp hlt) hlt2
          | succ j' =>
            simp only [List.getD_cons_succ] at hnf' ⊢
            exact hfirst j' (by omega) hnf'

/-- The index of the first record attaining the maximal total among
non-"full" records is unique: two indices that are both maximal and both
strictly above every earlier non-"full" record coincide. -/
theorem argmaxFirst_unique (clarityOf : String → ℚ) (l : List BRec) (k k' : ℕ)
    (hk : k < l.length) (hk' : k' < l.length)
    (hnf : isFullRec (l.getD k defaultBRec) = false)
    (hnf' : isFullRec (l.getD k' defaultBRec) = false)
    (hmax : ∀ r ∈ l, isFullRec r = false →
      totalScore clarityOf r ≤ totalScore clarityOf (l.getD k defaultBRec))
    (hmax' : ∀ r ∈ l, isFullRec r = false →
      totalScore clarityOf r ≤ totalScore clarityOf (l.getD k' defaultBRec))
    (hfirst : ∀ j < k, isFullRec (l.getD j defaultBRec) = false →
      totalScore clarityOf (l.getD j defaultBRec)
        < totalScore clarityOf (l.getD k defaultBRec))
    (hfirst' : ∀ j < k', isFullRec (l.getD j defaultBRec) = false →
      totalScore clarityOf (l.getD j defaultBRec)
        < totalScore clarityOf (l.getD k' defaultBRec)) :
    k = k' := by
  have hmem : l.getD k defaultBRec ∈ l := by
    rw [List.getD_eq_getElem l defaultBRec hk]
    exact List.getElem_mem hk
  have hmem' : l.getD k' defaultBRec ∈ l := by
    rw [List.getD_eq_getElem l defaultBRec hk']
    exact List.getElem_mem hk'
  rcases lt_trichotomy k k' with h | h | h
  · exfalso
    have h1 := hfirst' k h hnf
    have h2 := hmax (l.getD k' defaultBRec) hmem' hnf'
    exact absurd h1 (not_lt.mpr h2)
  · exact h
  · exfalso
    have h1 := hfirst k' h hnf'
    have h2 := hmax' (l.getD k defaultBRec) hmem hnf
    exact absurd h1 (not_lt.mpr h2)

/-- Claim C8, amended (corrected): whenever some non-"full" record has a
total score `classification_score + detection_score + clarity` strictly
above the loops' initial `best = 0`, both selectors are deterministic and
agree: `find_best_photo` returns an in-range index of a non-"full" record
whose total is maximal among all non-"full" records, strictly above every
earlier non-"full" record (first-occurrence tie-breaking), and
`find_best_photo_for_species` returns exactly that record.  (Without such
a record, `find_best_photo` returns index 0 — possibly a "full" image —
and `find_best_photo_for_species` returns `None`, as the counterexample
above shows.) -/
theorem c8_best_photo_argmax (clarityOf : String → ℚ) (records : List BRec)
    (hpos : ∃ r ∈ records, isFullRec r = false ∧ 0 < totalScore clarityOf r) :
    find_best_photo clarityOf records < records.length ∧
    isFullRec (records.getD (find_best_photo clarityOf records) defaultBRec) = false ∧
    (∀ r ∈ records, isFullRec r = false →
      totalScore clarityOf r ≤
        totalScore clarityOf
          (records.getD (find_best_photo clarityOf records) defaultBRec)) ∧
    (∀ j < find_best_photo clarityOf records,
      isFullRec (records.getD j defaultBRec) = false →
      totalScore clarityOf (records.getD j defaultBRec) <
        totalScore clarityOf
          (records.getD (find_best_photo clarityOf records) defaultBRec)) ∧
    find_best_photo_for_species clarityOf records
      = some (records.getD (find_best_photo clarityOf records) defaultBRec) := by
  obtain ⟨k, hk, heq, hnf, hlt, hmax, hfirst⟩ :=
    findBestPhotoGo_finds clarityOf records 0 0 0 hpos
  obtain ⟨k', hk', heq', hnf', hlt', hmax', hfirst'⟩ :=
    findBestForSpeciesGo_finds clarityOf records 0 none hpos
  have hkk : k = k' :=
    argmaxFirst_unique clarityOf records k k' hk hk' hnf hnf' hmax hmax' hfirst hfirst'
  have hfb : find_best_photo clarityOf records = k := by
    rw [find_best_photo, heq]
    omega
  rw [hfb]
  refine ⟨hk, hnf, hmax, hfirst, ?_⟩
  rw [find_best_photo_for_species, heq', ← hkk]

/-- Witness for the amended C8: a single non-"full" record with positive
total score is selected by both functions. -/
theorem c8_best_photo_argmax_witness :
    (∃ r ∈ [(⟨"/classified/2024-01-01/boxed_10-30-00_50_jay_40.png", 50, 40⟩ : BRec)],
      isFullRec r = false ∧ 0 < totalScore (fun _ => 0) r) ∧
    (find_best_photo (fun _ => 0)
        [(⟨"/classified/2024-01-01/boxed_10-30-00_50_jay_40.png", 50, 40⟩ : BRec)] <
      [(⟨"/classified/2024-01-01/boxed_10-30-00_50_jay_40.png", 50, 40⟩ : BRec)].length ∧
     isFullRec ([(⟨"/classified/2024-01-01/boxed_10-30-00_50_jay_40.png", 50, 40⟩ : BRec)].getD
        (find_best_photo (fun _ => 0)
          [(⟨"/classified/2024-01-01/boxed_10-30-00_50_jay_40.png", 50, 40⟩ : BRec)])
        defaultBRec) = false ∧
     (∀ r ∈ [(⟨"/classified/2024-01-01/boxed_10-30-00_50_jay_40.png", 50, 40⟩ : BRec)],
        isFullRec r = false →
        totalScore (fun _ => 0) r ≤
          totalScore (fun _ => 0)
            ([(⟨"/classified/2024-01-01/boxed_10-30-00_50_jay_40.png", 50, 40⟩ : BRec)].getD
              (find_best_photo (fun _ => 0)
                [(⟨"/classified/2024-01-01/boxed_10-30-00_50_jay_40.png", 50, 40⟩ : BRec)])
              defaultBRec)) ∧
     (∀ j < find_best_photo (fun _ => 0)
          [(⟨"/classified/2024-01-01/boxed_10-30-00_50_jay_40.png", 50, 40⟩ : BRec)],
        isFullRec ([(⟨"/classified/2024-01-01/boxed_10-30-00_50_jay_40.png", 50, 40⟩ : BRec)].getD
          j defaultBRec) = false →
        totalScore (fun _ => 0)
            ([(⟨"/classified/2024-01-01/boxed_10-30-00_50_jay_40.png", 50, 40⟩ : BRec)].getD
              j defaultBRec) <
          totalScore (fun _ => 0)
            ([(⟨"/classified/2024-01-01/boxed_10-30-00_50_jay_40.png", 50, 40⟩ : BRec)].getD
              (find_best_photo (fun _ => 0)
                [(⟨"/classified/2024-01-01/boxed_10-30-00_50_jay_40.png", 50, 40⟩ : BRec)])
              defaultBRec)) ∧
     find_best_photo_for_species (fun _ => 0)
        [(⟨"/classified/2024-01-01/boxed_10-30-00_50_jay_40.png", 50, 40⟩ : BRec)]
      = some ([(⟨"/classified/2024-01-01/boxed_10-30-00_50_jay_40.png", 50, 40⟩ : BRec)].getD
          (find_best_photo (fun _ => 0)
            [(⟨"/classified/2024-01-01/boxed_10-30-00_50_jay_40.png", 50, 40⟩ : BRec)])
          defaultBRec)) :=
  ⟨⟨⟨"/classified/2024-01-01/boxed_10-30-00_50_jay_40.png", 50, 40⟩, by simp,
     by decide, by norm_num [totalScore]⟩,
   c8_best_photo_argmax (fun _ => 0)
     [(⟨"/classified/2024-01-01/boxed_10-30-00_50_jay_40.png", 50, 40⟩ : BRec)]
     ⟨⟨"/classified/2024-01-01/boxed_10-30-00_50_jay_40.png", 50, 40⟩, by simp,
      by decide, by norm_num [totalScore]⟩⟩
